import Mathlib

/-!
Shallow embedding of the Power Pocket PWA: the calculator functions of
src/app.js and the cache lifecycle of src/service-worker.js.

JavaScript numbers are modelled as `Option ℝ`: `none` is the NaN sentinel
produced by parsing a blank or non-numeric field, `some x` a finite number
(the infinities, which no claim exercises, are not modelled).  Comparison
operators return `false` whenever an operand is NaN, matching JavaScript;
arithmetic on NaN yields NaN.  Division in the source only occurs behind a
guard that the divisor is nonzero (in `power_factor` the check
`s_kva <= 0` has already passed, in Ohm's law the divisor was checked
against 0), so Lean's `x / 0 = 0` convention is never exercised on the
embedded paths.  Errors thrown with `throw new CalcError(msg)` become
`Except.error ⟨msg⟩`; the embedded compute functions throw nothing else,
so `Except CalcError` captures the whole control flow of the handler.
-/

namespace PowerPocket

/-- A JavaScript number as used by the calculators: NaN or a finite real. -/
abbrev JNum := Option ℝ

/-- The `CalcError` class of app.js: an error carrying a display message. -/
structure CalcError where
  message : String
deriving DecidableEq

/-- JavaScript `a <= b` on numbers (false when either side is NaN). -/
noncomputable def jsLEb : JNum → JNum → Bool
  | some a, some b => decide (a ≤ b)
  | _, _ => false

/-- JavaScript `a < b` on numbers (false when either side is NaN). -/
noncomputable def jsLTb : JNum → JNum → Bool
  | some a, some b => decide (a < b)
  | _, _ => false

/-- JavaScript `a === 0` on numbers (false for NaN). -/
noncomputable def jsEq0b : JNum → Bool
  | some a => decide (a = 0)
  | none => false

/-- JavaScript multiplication: NaN propagates. -/
noncomputable def jmul : JNum → JNum → JNum
  | some a, some b => some (a * b)
  | _, _ => none

/-- JavaScript division: NaN propagates (only reached with nonzero divisor). -/
noncomputable def jdiv : JNum → JNum → JNum
  | some a, some b => some (a / b)
  | _, _ => none

/-- JavaScript subtraction: NaN propagates. -/
noncomputable def jsub : JNum → JNum → JNum
  | some a, some b => some (a - b)
  | _, _ => none

/-- JavaScript `x ** 2`. -/
noncomputable def jsq : JNum → JNum
  | some a => some (a ^ 2)
  | none => none

/-- JavaScript `Math.sqrt` (NaN on NaN or a negative argument). -/
noncomputable def jsqrt : JNum → JNum
  | some a => if a < 0 then none else some (Real.sqrt a)
  | none => none

/-- JavaScript `Math.min` (NaN propagates). -/
noncomputable def jmin : JNum → JNum → JNum
  | some a, some b => some (min a b)
  | _, _ => none

/-- JavaScript `Math.max` (NaN propagates). -/
noncomputable def jmax : JNum → JNum → JNum
  | some a, some b => some (max a b)
  | _, _ => none

/-- JavaScript `Math.acos` (NaN outside [-1,1] or on NaN). -/
noncomputable def jacos : JNum → JNum
  | some a => if a < -1 ∨ 1 < a then none else some (Real.arccos a)
  | none => none

/-- app.js `power_factor(p_kw, s_kva)`. -/
noncomputable def power_factor (p_kw s_kva : JNum) : Except CalcError JNum :=
  if jsLEb s_kva (some 0) then .error ⟨"kVA must be > 0"⟩
  else if jsLTb p_kw (some 0) then .error ⟨"kW must be ≥ 0"⟩
  else if jsLTb s_kva p_kw then .error ⟨"kW cannot exceed kVA"⟩
  else .ok (jdiv p_kw s_kva)

/-- app.js `reactive_power_kvar(s_kva, p_kw)`. -/
noncomputable def reactive_power_kvar (s_kva p_kw : JNum) : Except CalcError JNum :=
  if jsLEb s_kva (some 0) then .error ⟨"kVA must be > 0"⟩
  else if jsLTb p_kw (some 0) then .error ⟨"kW must be ≥ 0"⟩
  else if jsLTb s_kva p_kw then .error ⟨"kW cannot exceed kVA"⟩
  else
    let val := jsub (jsq s_kva) (jsq p_kw)
    .ok (jsqrt (if jsLTb (some 0) val then val else some 0))

/-- app.js `phase_angle_deg(s_kva, p_kw)`: a thrown `CalcError` from
`power_factor` propagates. -/
noncomputable def phase_angle_deg (s_kva p_kw : JNum) : Except CalcError JNum := do
  let pf0 ← power_factor p_kw s_kva
  let pf := jmin (some 1) (jmax (some 0) pf0)
  return jmul (some (180 / Real.pi)) (jacos pf)

/-- app.js `load_kw_single(volts, amps, pf)`. -/
noncomputable def load_kw_single (volts amps pf : JNum) : Except CalcError JNum :=
  if jsLEb volts (some 0) then .error ⟨"Volts must be > 0"⟩
  else if jsLEb amps (some 0) then .error ⟨"Amps must be > 0"⟩
  else if !(jsLEb (some 0) pf && jsLEb pf (some 1)) then
    .error ⟨"Power factor must be between 0 and 1"⟩
  else .ok (jdiv (jmul (jmul volts amps) pf) (some 1000))

/-- app.js `load_kw_three(volts, amps, pf)`. -/
noncomputable def load_kw_three (volts amps pf : JNum) : Except CalcError JNum :=
  if jsLEb volts (some 0) then .error ⟨"Volts must be > 0"⟩
  else if jsLEb amps (some 0) then .error ⟨"Amps must be > 0"⟩
  else if !(jsLEb (some 0) pf && jsLEb pf (some 1)) then
    .error ⟨"Power factor must be between 0 and 1"⟩
  else .ok (jdiv (jmul (jmul (jmul (jsqrt (some 3)) volts) amps) pf) (some 1000))

/-- app.js `CALCS["Ohm's Law"].compute`: `Number.isNaN x` is `x.isNone`,
`[v,i,r].filter(x=>!Number.isNaN(x)).length` is the count of `isSome`
entries. -/
noncomputable def ohmCompute (volts amps ohms : JNum) :
    Except CalcError (JNum × JNum × JNum) :=
  let known := ([volts, amps, ohms].filter (fun x => x.isSome)).length
  if known ≠ 2 then .error ⟨"Provide exactly two of V, I, R"⟩
  else if volts.isNone then .ok (jmul amps ohms, amps, ohms)
  else if amps.isNone then
    if jsEq0b ohms then .error ⟨"R must not be 0"⟩
    else .ok (volts, jdiv volts ohms, ohms)
  else if ohms.isNone then
    if jsEq0b amps then .error ⟨"I must not be 0"⟩
    else .ok (volts, amps, jdiv volts amps)
  else .ok (volts, amps, ohms)

/-- Decimal rendering of the integer `n` obtained by rounding `x·10^d`:
integer part, point, and `d` zero-padded fractional digits. -/
def fixedString (d : ℕ) (n : ℤ) : String :=
  let base : ℤ := 10 ^ d
  let ip := n / base
  let fr := (n % base).toNat
  let fs := toString fr
  toString ip ++ "." ++ String.mk (List.replicate (d - fs.length) '0') ++ fs

/-- JavaScript `x.toFixed(d)` for the values the calculators format:
`"NaN"` for NaN, otherwise the nearest multiple of `10^(-d)` (ties round
up, as in the ECMAScript algorithm for nonnegative values). -/
noncomputable def jtoFixed (d : ℕ) : JNum → String
  | none => "NaN"
  | some x => fixedString d (round (x * 10 ^ d))

/-- The compute click handler's display protocol: a normal result is shown
as-is with the error flag off; a thrown `CalcError` is shown as
`[error] <message>` with the flag on.  (The handler's remaining branch,
`[unexpected] <details>`, catches non-`CalcError` exceptions only; the
embedded compute functions throw nothing but `CalcError`.) -/
def display : Except CalcError String → String × Bool
  | .ok s => (s, false)
  | .error e => ("[error] " ++ e.message, true)

/-- Compute-and-display pipeline of the Power Factor calculator:
`compute` then `format` (`PF = ${pf.toFixed(4)}`), under the handler. -/
noncomputable def computeDisplayPF (p_kw s_kva : JNum) : String × Bool :=
  display ((power_factor p_kw s_kva).map (fun r => "PF = " ++ jtoFixed 4 r))

/-- Compute-and-display pipeline of the Load (Three-Phase) calculator:
`compute` then `format` (`P = ${kw.toFixed(3)} kW`), under the handler. -/
noncomputable def computeDisplayLoad3 (volts amps pf : JNum) : String × Bool :=
  display ((load_kw_three volts amps pf).map (fun kw => "P = " ++ jtoFixed 3 kw ++ " kW"))

/-- service-worker.js cache name: `"ppc-cache-v2-" + Date.now()`. -/
def CACHE (now : ℕ) : String := "ppc-cache-v2-" ++ toString now

/-- service-worker.js `ASSETS`. -/
def ASSETS : List String :=
  ["./", "./index.html", "./styles.css", "./app.js", "./manifest.json",
   "./assets/icon-512.png", "./assets/icon.svg", "./assets/background.png"]

/-- JavaScript Boolean coercion on a string: only the empty string is falsy. -/
def jsTruthyStr (s : String) : Bool := s != ""

/-- The list the second install listener writes into the cache:
`ASSETS.filter(Boolean)`. -/
def installAssets : List String := ASSETS.filter jsTruthyStr

/-- JavaScript `s.startsWith(p)`. -/
def strStarts (p s : String) : Bool := p.data.isPrefixOf s.data

/-- The first activate listener deletes key `k` iff
`k.startsWith("ppc-cache-") && k !== CACHE`. -/
def activate1Deletes (cache k : String) : Bool :=
  strStarts "ppc-cache-" k && k != cache

/-- The second activate listener deletes key `k` iff `k !== CACHE`. -/
def activate2Deletes (cache k : String) : Bool := k != cache

/-- A cache key is deleted during activation iff either registered
activate listener deletes it. -/
def deletedByActivate (cache k : String) : Bool :=
  activate1Deletes cache k || activate2Deletes cache k

/-- C2: on activation the code deletes even caches that do not carry the
"ppc-cache-" name pattern: the second activate listener deletes every key
other than the current cache name, so the foreign cache "other-store"
(which the claim says is left untouched) is deleted. -/
theorem activate_deletes_foreign_cache :
    strStarts "ppc-cache-" "other-store" = false ∧
    deletedByActivate (CACHE 0) "other-store" = true := by
  decide

/-- C9 counterexample: the populated asset list does not contain four
image/icon assets (paths under "./assets/"); it contains three. -/
theorem assets_image_count_not_four :
    ¬ ((installAssets.filter (fun a => strStarts "./assets/" a)).length = 4) := by
  decide

/-- C9 amended: the fixed asset list populated at install (no entry is
falsy, so the filter keeps all of them) consists of the root document
(listed twice, as "./" and as "./index.html"), the stylesheet, the script,
the manifest, and three image/icon assets. -/
theorem install_assets_fixed_list :
    installAssets = ASSETS ∧
    ASSETS = ["./", "./index.html", "./styles.css", "./app.js", "./manifest.json",
      "./assets/icon-512.png", "./assets/icon.svg", "./assets/background.png"] ∧
    (installAssets.filter (fun a => strStarts "./assets/" a)).length = 3 := by
  decide

/-- On valid inputs all three validation checks of `power_factor` pass and
the quotient is returned. -/
lemma power_factor_ok_aux (p s : ℝ) (hs : 0 < s) (hp0 : 0 ≤ p) (hps : p ≤ s) :
    power_factor (some p) (some s) = .ok (some (p / s)) := by
  have h1 : jsLEb (some s) (some 0) = false := by
    simp only [jsLEb, decide_eq_false_iff_not, not_le]; exact hs
  have h2 : jsLTb (some p) (some 0) = false := by
    simp only [jsLTb, decide_eq_false_iff_not, not_lt]; exact hp0
  have h3 : jsLTb (some s) (some p) = false := by
    simp only [jsLTb, decide_eq_false_iff_not, not_lt]; exact hps
  simp [power_factor, h1, h2, h3, jdiv]

/-- C5: for S > 0 and 0 ≤ P ≤ S, `power_factor(P,S)` returns P/S without
throwing, and the value lies in [0,1]. -/
theorem power_factor_in_unit_interval (p s : ℝ) (hs : 0 < s) (hp0 : 0 ≤ p)
    (hps : p ≤ s) :
    power_factor (some p) (some s) = .ok (some (p / s)) ∧
      0 ≤ p / s ∧ p / s ≤ 1 :=
  ⟨power_factor_ok_aux p s hs hp0 hps, div_nonneg hp0 hs.le,
    (div_le_one hs).mpr hps⟩

/-- Witness for C5 at P = 80, S = 100. -/
theorem power_factor_in_unit_interval_w :
    power_factor (some 80) (some 100) = .ok (some ((80 : ℝ) / 100)) ∧
      0 ≤ (80 : ℝ) / 100 ∧ (80 : ℝ) / 100 ≤ 1 :=
  power_factor_in_unit_interval 80 100 (by norm_num) (by norm_num) (by norm_num)

/-- C7: for S > 0 and 0 ≤ P ≤ S, `reactive_power_kvar(S,P)` succeeds with a
nonnegative value, which is 0 when P = S. -/
theorem reactive_power_nonneg (s p : ℝ) (hs : 0 < s) (hp0 : 0 ≤ p)
    (hps : p ≤ s) :
    ∃ q : ℝ, reactive_power_kvar (some s) (some p) = .ok (some q) ∧
      0 ≤ q ∧ (p = s → q = 0) := by
  have h1 : jsLEb (some s) (some 0) = false := by
    simp only [jsLEb, decide_eq_false_iff_not, not_le]; exact hs
  have h2 : jsLTb (some p) (some 0) = false := by
    simp only [jsLTb, decide_eq_false_iff_not, not_lt]; exact hp0
  have h3 : jsLTb (some s) (some p) = false := by
    simp only [jsLTb, decide_eq_false_iff_not, not_lt]; exact hps
  by_cases hv : 0 < s ^ 2 - p ^ 2
  · have h4 : jsLTb (some 0) (some (s ^ 2 - p ^ 2)) = true := by
      simp only [jsLTb, decide_eq_true_eq]; exact hv
    refine ⟨Real.sqrt (s ^ 2 - p ^ 2), ?_, Real.sqrt_nonneg _, ?_⟩
    · have h5 : ¬(s ^ 2 - p ^ 2 < 0) := by linarith
      simp [reactive_power_kvar, h1, h2, h3, h4, jsub, jsq, jsqrt, h5]
    · intro hps'
      subst hps'
      simp at hv
  · have h4 : jsLTb (some 0) (some (s ^ 2 - p ^ 2)) = false := by
      simp only [jsLTb, decide_eq_false_iff_not]; exact hv
    refine ⟨Real.sqrt 0, ?_, Real.sqrt_nonneg _, fun _ => by simp⟩
    have h5 : ¬((0 : ℝ) < 0) := lt_irrefl 0
    simp [reactive_power_kvar, h1, h2, h3, h4, jsub, jsq, jsqrt, h5]

/-- Witness for C7 at S = 100, P = 80. -/
theorem reactive_power_nonneg_w :
    ∃ q : ℝ, reactive_power_kvar (some 100) (some 80) = .ok (some q) ∧
      0 ≤ q ∧ ((80 : ℝ) = 100 → q = 0) :=
  reactive_power_nonneg 100 80 (by norm_num) (by norm_num) (by norm_num)

/-- C6: for every volts, amps, pf accepted by the load validation,
`load_kw_three` returns √3 times the value `load_kw_single` returns. -/
theorem load_three_is_sqrt3_mul_single (v a pf : ℝ) (hv : 0 < v) (ha : 0 < a)
    (h0 : 0 ≤ pf) (h1 : pf ≤ 1) :
    ∃ x y : ℝ, load_kw_single (some v) (some a) (some pf) = .ok (some x) ∧
      load_kw_three (some v) (some a) (some pf) = .ok (some y) ∧
      y = Real.sqrt 3 * x := by
  have hvf : jsLEb (some v) (some 0) = false := by
    simp only [jsLEb, decide_eq_false_iff_not, not_le]; exact hv
  have haf : jsLEb (some a) (some 0) = false := by
    simp only [jsLEb, decide_eq_false_iff_not, not_le]; exact ha
  have hpf : (jsLEb (some 0) (some pf) && jsLEb (some pf) (some 1)) = true := by
    simp only [jsLEb, Bool.and_eq_true, decide_eq_true_eq]; exact ⟨h0, h1⟩
  have h3 : ¬((3 : ℝ) < 0) := by norm_num
  refine ⟨v * a * pf / 1000, Real.sqrt 3 * v * a * pf / 1000, ?_, ?_, by ring⟩
  · simp [load_kw_single, hvf, haf, hpf, jmul, jdiv]
  · simp [load_kw_three, hvf, haf, hpf, jmul, jdiv, jsqrt, h3]

/-- Witness for C6 at V = 480, I = 10, pf = 0.8. -/
theorem load_three_is_sqrt3_mul_single_w :
    ∃ x y : ℝ, load_kw_single (some 480) (some 10) (some 0.8) = .ok (some x) ∧
      load_kw_three (some 480) (some 10) (some 0.8) = .ok (some y) ∧
      y = Real.sqrt 3 * x :=
  load_three_is_sqrt3_mul_single 480 10 0.8 (by norm_num) (by norm_num)
    (by norm_num) (by norm_num)

/-- C10 counterexample: with volts = 0 (and any pf, here NaN) the load
computes throw the volts message, not the power-factor message, so the
power-factor message is not thrown for every volts and amps. -/
theorem load_nan_pf_not_universal :
    load_kw_three (some 0) (some 1) none = .error ⟨"Volts must be > 0"⟩ ∧
    ("Volts must be > 0" : String) ≠ "Power factor must be between 0 and 1" := by
  constructor
  · have h' : jsLEb (some (0 : ℝ)) (some 0) = true := by
      simp [jsLEb]
    simp [load_kw_three, h']
  · decide

/-- C10 amended: whenever volts and amps pass the positivity checks (NaN
passes them, since a NaN comparison is false), a NaN power factor makes
both load calculators throw the `CalcError` "Power factor must be between
0 and 1". -/
theorem load_nan_pf_validation (volts amps : JNum)
    (hv : jsLEb volts (some 0) = false) (ha : jsLEb amps (some 0) = false) :
    load_kw_single volts amps none = .error ⟨"Power factor must be between 0 and 1"⟩ ∧
    load_kw_three volts amps none = .error ⟨"Power factor must be between 0 and 1"⟩ := by
  have hpf : (jsLEb (some 0) (none : JNum) && jsLEb (none : JNum) (some 1)) = false := by
    simp [jsLEb]
  constructor
  · simp [load_kw_single, hv, ha, hpf]
  · simp [load_kw_three, hv, ha, hpf]

/-- Witness for C10 at volts = 480, amps = 10, pf = NaN. -/
theorem load_nan_pf_validation_w :
    jsLEb (some (480 : ℝ)) (some 0) = false ∧
    jsLEb (some (10 : ℝ)) (some 0) = false ∧
    load_kw_single (some 480) (some 10) none =
      .error ⟨"Power factor must be between 0 and 1"⟩ ∧
    load_kw_three (some 480) (some 10) none =
      .error ⟨"Power factor must be between 0 and 1"⟩ := by
  have hv : jsLEb (some (480 : ℝ)) (some 0) = false := by
    simp only [jsLEb, decide_eq_false_iff_not, not_le]; norm_num
  have ha : jsLEb (some (10 : ℝ)) (some 0) = false := by
    simp only [jsLEb, decide_eq_false_iff_not, not_le]; norm_num
  have h := load_nan_pf_validation (some 480) (some 10) hv ha
  exact ⟨hv, ha, h.1, h.2⟩

/-- C8: for S > 0 and 0 ≤ P ≤ S, `phase_angle_deg(S,P)` succeeds with an
angle in [0, 90] degrees, which is 0 when P = S. -/
theorem phase_angle_range (s p : ℝ) (hs : 0 < s) (hp0 : 0 ≤ p) (hps : p ≤ s) :
    ∃ θ : ℝ, phase_angle_deg (some s) (some p) = .ok (some θ) ∧
      0 ≤ θ ∧ θ ≤ 90 ∧ (p = s → θ = 0) := by
  have hd0 : 0 ≤ p / s := div_nonneg hp0 hs.le
  have hd1 : p / s ≤ 1 := (div_le_one hs).mpr hps
  refine ⟨180 / Real.pi * Real.arccos (p / s), ?_, ?_, ?_, ?_⟩
  · have hmax : jmax (some 0) (some (p / s)) = some (p / s) := by
      simp [jmax, max_eq_right hd0]
    have hmin : jmin (some 1) (some (p / s)) = some (p / s) := by
      simp [jmin, min_eq_right hd1]
    have hac : jacos (some (p / s)) = some (Real.arccos (p / s)) := by
      have hr : ¬(p / s < -1 ∨ 1 < p / s) := by
        push_neg
        exact ⟨by linarith, by linarith⟩
      simp [jacos, hr]
    simp [phase_angle_deg, power_factor_ok_aux p s hs hp0 hps, hmax, hmin,
      hac, jmul]
  · have : 0 ≤ 180 / Real.pi := by positivity
    exact mul_nonneg this (Real.arccos_nonneg _)
  · have h2 : Real.arccos (p / s) ≤ Real.pi / 2 :=
      Real.arccos_le_pi_div_two.mpr hd0
    have hπ : (0 : ℝ) < Real.pi := Real.pi_pos
    calc 180 / Real.pi * Real.arccos (p / s)
        ≤ 180 / Real.pi * (Real.pi / 2) :=
          mul_le_mul_of_nonneg_left h2 (by positivity)
      _ = 90 := by
          field_simp
          norm_num
  · intro h
    subst h
    rw [div_self (ne_of_gt hs), Real.arccos_one, mul_zero]

/-- Witness for C8 at S = 100, P = 80. -/
theorem phase_angle_range_w :
    ∃ θ : ℝ, phase_angle_deg (some 100) (some 80) = .ok (some θ) ∧
      0 ≤ θ ∧ θ ≤ 90 ∧ ((80 : ℝ) = 100 → θ = 0) :=
  phase_angle_range 100 80 (by norm_num) (by norm_num) (by norm_num)

/-- C4: the Ohm's-law compute: with exactly two of {V, I, R} provided the
third is solved so that V = I·R holds exactly and the two provided values
are returned unchanged; a provided zero divisor (R when solving for I, I
when solving for R) throws; three provided values or fewer than two throw
the arity `CalcError`; and every successful result satisfies V = I·R. -/
theorem ohm_law_spec :
    (∀ i r : ℝ, ohmCompute none (some i) (some r) =
        .ok (some (i * r), some i, some r)) ∧
    (∀ v r : ℝ, r ≠ 0 →
      ohmCompute (some v) none (some r) = .ok (some v, some (v / r), some r)) ∧
    (∀ v : ℝ, ohmCompute (some v) none (some 0) = .error ⟨"R must not be 0"⟩) ∧
    (∀ v i : ℝ, i ≠ 0 →
      ohmCompute (some v) (some i) none = .ok (some v, some i, some (v / i))) ∧
    (∀ v : ℝ, ohmCompute (some v) (some 0) none = .error ⟨"I must not be 0"⟩) ∧
    (∀ v i r : ℝ, ohmCompute (some v) (some i) (some r) =
        .error ⟨"Provide exactly two of V, I, R"⟩) ∧
    (∀ x : ℝ,
      ohmCompute (some x) none none = .error ⟨"Provide exactly two of V, I, R"⟩ ∧
      ohmCompute none (some x) none = .error ⟨"Provide exactly two of V, I, R"⟩ ∧
      ohmCompute none none (some x) = .error ⟨"Provide exactly two of V, I, R"⟩) ∧
    ohmCompute none none none = .error ⟨"Provide exactly two of V, I, R"⟩ ∧
    (∀ (v i r : JNum) (v2 i2 r2 : ℝ),
      ohmCompute v i r = .ok (some v2, some i2, some r2) → v2 = i2 * r2) := by
  refine ⟨?_, ?_, ?_, ?_, ?_, ?_, ?_, ?_, ?_⟩
  · intro i r
    simp [ohmCompute, jmul]
  · intro v r hr
    have h0 : jsEq0b (some r) = false := by
      simp only [jsEq0b, decide_eq_false_iff_not]; exact hr
    simp [ohmCompute, h0, jdiv]
  · intro v
    have h0 : jsEq0b (some (0 : ℝ)) = true := by simp [jsEq0b]
    simp [ohmCompute, h0]
  · intro v i hi
    have h0 : jsEq0b (some i) = false := by
      simp only [jsEq0b, decide_eq_false_iff_not]; exact hi
    simp [ohmCompute, h0, jdiv]
  · intro v
    have h0 : jsEq0b (some (0 : ℝ)) = true := by simp [jsEq0b]
    simp [ohmCompute, h0]
  · intro v i r
    simp [ohmCompute]
  · intro x
    refine ⟨?_, ?_, ?_⟩ <;> simp [ohmCompute]
  · simp [ohmCompute]
  · rintro (_ | v) (_ | i) (_ | r) v2 i2 r2 h
    · simp [ohmCompute] at h
    · simp [ohmCompute] at h
    · simp [ohmCompute] at h
    · simp [ohmCompute, jmul] at h
      rw [← h.1, ← h.2.1, ← h.2.2]
    · simp [ohmCompute] at h
    · by_cases hr : r = 0
      · subst hr
        have h0 : jsEq0b (some (0 : ℝ)) = true := by simp [jsEq0b]
        simp [ohmCompute, h0] at h
      · have h0 : jsEq0b (some r) = false := by
          simp only [jsEq0b, decide_eq_false_iff_not]; exact hr
        simp [ohmCompute, h0, jdiv] at h
        rw [← h.1, ← h.2.1, ← h.2.2, div_mul_cancel₀ v hr]
    · by_cases hi : i = 0
      · subst hi
        have h0 : jsEq0b (some (0 : ℝ)) = true := by simp [jsEq0b]
        simp [ohmCompute, h0] at h
      · have h0 : jsEq0b (some i) = false := by
          simp only [jsEq0b, decide_eq_false_iff_not]; exact hi
        simp [ohmCompute, h0, jdiv] at h
        have hvi : i * (v / i) = v := by field_simp
        rw [← h.1, ← h.2.1, ← h.2.2, hvi]
    · simp [ohmCompute] at h

/-- Witness for C4: V = 120, I = 10, R blank solves R = 12 = 120/10. -/
theorem ohm_law_spec_w :
    ohmCompute (some 120) (some 10) none =
      .ok (some 120, some 10, some ((120 : ℝ) / 10)) :=
  ohm_law_spec.2.2.2.1 120 10 (by norm_num)

/-- The Power Factor pipeline on a NaN real-power field and a positive
apparent power: `power_factor` throws nothing (NaN passes every negated
check), NaN/S is NaN, and toFixed renders "NaN" as a non-error result. -/
lemma computeDisplayPF_nan_aux (s : ℝ) (hs : 0 < s) :
    computeDisplayPF none (some s) = ("PF = NaN", false) := by
  have h1 : jsLEb (some s) (some 0) = false := by
    simp only [jsLEb, decide_eq_false_iff_not, not_le]; exact hs
  have h2 : jsLTb (none : JNum) (some (0 : ℝ)) = false := by simp [jsLTb]
  have h3 : jsLTb (some s) (none : JNum) = false := by simp [jsLTb]
  simp [computeDisplayPF, power_factor, h1, h2, h3, jdiv, jtoFixed,
    display, Except.map]

/-- C3 counterexample: for the Power Factor calculator with a NaN real
power and S = 100, the pipeline displays the formatted non-error result
"PF = NaN" instead of an `[unexpected]` error. -/
theorem power_factor_nan_displayed_as_result :
    computeDisplayPF none (some 100) = ("PF = NaN", false) :=
  computeDisplayPF_nan_aux 100 (by norm_num)

/-- C3 amended: a required field parsing to NaN is not exposed as an
error: for the Power Factor calculator, for every positive apparent
power, a NaN real-power field flows through compute and is displayed as
the formatted result "PF = NaN" with the error flag off. -/
theorem power_factor_nan_flows_to_display (s : ℝ) (hs : 0 < s) :
    computeDisplayPF none (some s) = ("PF = NaN", false) :=
  computeDisplayPF_nan_aux s hs

/-- Witness for C3 (amended) at S = 50. -/
theorem power_factor_nan_flows_to_display_w :
    computeDisplayPF none (some 50) = ("PF = NaN", false) :=
  power_factor_nan_flows_to_display 50 (by norm_num)

/-- Lower bound on √3 sharp enough to settle the rounding of the
three-phase scenario. -/
lemma sqrt_three_gt : (1.732 : ℝ) < Real.sqrt 3 :=
  (Real.lt_sqrt (by norm_num)).mpr (by norm_num)

/-- Upper bound on √3 sharp enough to settle the rounding of the
three-phase scenario. -/
lemma sqrt_three_lt : Real.sqrt 3 < 1.7321 :=
  (Real.sqrt_lt' (by norm_num)).mpr (by norm_num)

/-- The three-phase kilowatt value at V = 480, I = 10, pf = 0.8 rounds to
6651 thousandths: √3·3840 lies in [6650.5, 6651.5). -/
lemma round_load3 :
    round (Real.sqrt 3 * 480 * 10 * 0.8 / 1000 * (10 : ℝ) ^ (3 : ℕ)) = (6651 : ℤ) := by
  have h : Real.sqrt 3 * 480 * 10 * 0.8 / 1000 * (10 : ℝ) ^ (3 : ℕ) =
      Real.sqrt 3 * 3840 := by
    ring
  have h1 := sqrt_three_gt
  have h2 := sqrt_three_lt
  rw [h, round_eq, Int.floor_eq_iff]
  constructor
  · push_cast
    nlinarith
  · push_cast
    nlinarith

/-- Evaluation of the fixed-point renderer at 6651 thousandths. -/
lemma fixedString_6651 : fixedString 3 6651 = "6.651" := by decide

/-- Evaluation of the Load (Three-Phase) pipeline at the scenario input:
the checks pass and the display string is "P = 6.651 kW". -/
lemma load3_display_eval :
    computeDisplayLoad3 (some 480) (some 10) (some 0.8) = ("P = 6.651 kW", false) := by
  have hv : jsLEb (some (480 : ℝ)) (some 0) = false := by
    simp only [jsLEb, decide_eq_false_iff_not, not_le]; norm_num
  have ha : jsLEb (some (10 : ℝ)) (some 0) = false := by
    simp only [jsLEb, decide_eq_false_iff_not, not_le]; norm_num
  have hpf : (jsLEb (some (0 : ℝ)) (some (0.8 : ℝ)) &&
      jsLEb (some (0.8 : ℝ)) (some 1)) = true := by
    simp only [jsLEb, Bool.and_eq_true, decide_eq_true_eq]
    norm_num
  have h3 : ¬((3 : ℝ) < 0) := by norm_num
  have hkw : load_kw_three (some 480) (some 10) (some 0.8) =
      .ok (some (Real.sqrt 3 * 480 * 10 * 0.8 / 1000)) := by
    simp [load_kw_three, hv, ha, hpf, jsqrt, h3, jmul, jdiv]
  have hfix : jtoFixed 3 (some (Real.sqrt 3 * 480 * 10 * 0.8 / 1000)) = "6.651" := by
    simp only [jtoFixed]
    rw [round_load3, fixedString_6651]
  simp [computeDisplayLoad3, hkw, Except.map, hfix, display]

/-- C1 counterexample: the Load (Three-Phase) scenario V = 480, I = 10,
pf = 0.8 does not display "P = 6.650 kW" (√3·3840/1000 ≈ 6.65108 rounds
to 6.651 at three decimals). -/
theorem load_three_scenario_not_6650 :
    (computeDisplayLoad3 (some 480) (some 10) (some 0.8)).1 ≠ "P = 6.650 kW" := by
  rw [load3_display_eval]
  decide

/-- C1 amended: computing the Load (Three-Phase) calculator at volts =
480, amps = 10, pf = 0.8 and formatting the result yields exactly the
non-error display string "P = 6.651 kW". -/
theorem load_three_scenario_display :
    computeDisplayLoad3 (some 480) (some 10) (some 0.8) = ("P = 6.651 kW", false) :=
  load3_display_eval

end PowerPocket
